import Mathlib

/-!
Verification of the autonomous multi-agent testing simulation.

This file gives a shallow embedding of the core of the repository
(availability resolver, action policy, parameter synthesis, action
executor, simulation loop bookkeeping, goal evaluator and run-status
logic) and proves or refutes the frozen claims about it.

Conventions of the embedding:
- TypeScript arrays become List, JS Set becomes a List with
  membership-checked insertion, JS Map becomes an association list.
- Numbers (budgets, costs, random draws) become Rat; Math.floor
  becomes Int.floor.  Math.random() becomes an explicit parameter
  rand with 0 <= rand < 1 where a bound is needed.
- The external Action Tool Surface and the Decision Service are
  collaborators outside the repository; each call site receives its
  outcome (success value or thrown error message) from an explicit
  oracle argument, mirroring that each call may independently fail.
- Fallible code (try/catch, thrown errors) becomes Except String.
- Date timestamps and the result.data payload carry no information
  used by any claim and are omitted from the ActionResult record.
-/

namespace TestingAgent

/-- Role enumeration from state/types.ts (UserRoleSchema). -/
inductive UserRole
  | homeowner
  | tradesperson
  | business
  | team_member
  | admin
deriving DecidableEq, Repr

/-- Job lifecycle status from state/types.ts (TestJobSchema). -/
inductive JobStatus
  | OPEN
  | IN_PROGRESS
  | COMPLETED
  | CLOSED
deriving DecidableEq, Repr

/-- Offer lifecycle status from state/types.ts (TestOfferSchema). -/
inductive OfferStatus
  | PENDING
  | ACCEPTED
  | REJECTED
  | COMPLETED
  | WITHDRAWN
  | EXPIRED
deriving DecidableEq, Repr

/-- Application status codes from state/types.ts (TestApplicationSchema). -/
inductive AppStatus
  | IP
  | C
  | UR
  | S
  | V
  | A
deriving DecidableEq, Repr

/-- Test user from state/types.ts (TestUserSchema); fields not read by the
core (password, profileId, businessProfileId, createdAt, sessionToken,
metadata) are omitted. -/
structure TestUser where
  id : String
  email : String
  role : UserRole
  tradespersonProfileId : Option String
  fullName : String
deriving DecidableEq, Repr

/-- Job record from state/types.ts (TestJobSchema). -/
structure TestJob where
  id : String
  title : String
  category : String
  status : JobStatus
  createdBy : String
  budget : ℚ
deriving DecidableEq, Repr

/-- Application record from state/types.ts (TestApplicationSchema). -/
structure TestApplication where
  id : String
  jobId : String
  applicantId : String
  tradespersonProfileId : Option String
  status : AppStatus
  estimatedCost : ℚ
deriving DecidableEq, Repr

/-- Offer record from state/types.ts (TestOfferSchema). -/
structure TestOffer where
  id : String
  jobId : String
  homeownerId : String
  tradespersonId : String
  status : OfferStatus
  budget : ℚ
deriving DecidableEq, Repr

/-- Review record from state/types.ts (TestReviewSchema). -/
structure TestReview where
  id : String
  offerId : String
  rating : ℤ
  feedback : String
deriving DecidableEq, Repr

/-- Union of all action names across the three autonomous roles
(HomeownerAction, TradespersonAction, BusinessAction in
agents/autonomous.agent.ts). -/
inductive AnyAction
  | create_job
  | view_applications
  | shortlist_applicant
  | make_offer
  | complete_job
  | leave_review
  | browse_jobs
  | apply_to_job
  | view_offers
  | accept_offer
  | reject_offer
  | view_reviews
deriving DecidableEq, Repr

/-- The string name of an action, as used in log and error messages. -/
def actionName : AnyAction → String
  | .create_job => "create_job"
  | .view_applications => "view_applications"
  | .shortlist_applicant => "shortlist_applicant"
  | .make_offer => "make_offer"
  | .complete_job => "complete_job"
  | .leave_review => "leave_review"
  | .browse_jobs => "browse_jobs"
  | .apply_to_job => "apply_to_job"
  | .view_offers => "view_offers"
  | .accept_offer => "accept_offer"
  | .reject_offer => "reject_offer"
  | .view_reviews => "view_reviews"

/-- ActionRecord from state/types.ts (ActionResultSchema); the timestamp
and the untyped data payload are omitted (no claim mentions them). -/
structure ActionResult where
  success : Bool
  action : AnyAction
  agentType : UserRole
  userId : String
  error : Option String
deriving DecidableEq, Repr

/-- Overall run status from state/types.ts. -/
inductive RunStatus
  | idle
  | running
  | completed
  | failed
deriving DecidableEq, Repr

/-- World State from state/types.ts (TestAgentState).  The two fields of
the scripted orchestrator (the loaded script and the step index) are
not read by any autonomous-core function, so they are omitted here. -/
structure TestAgentState where
  testUsers : List TestUser
  jobs : List TestJob
  applications : List TestApplication
  offers : List TestOffer
  reviews : List TestReview
  actionHistory : List ActionResult
  errors : List String
  status : RunStatus
  messages : List String
deriving DecidableEq, Repr

/-! ## Availability Resolver (agents/autonomous.agent.ts) -/

/-- The inline computation shared by the homeowner and business
availability branches and reused below: the COMPLETED offers owned by
the user (homeownerId field) that have no review yet.  Mirrors the
completedOffers / reviewedOfferIds / unreviewedOffers lines of
getAvailableHomeownerActionsForUser and
getAvailableBusinessActionsForUser. -/
def offersAvailableToReview (state : TestAgentState) (user : TestUser) :
    List TestOffer :=
  let myOffers := state.offers.filter (fun o => o.homeownerId == user.id)
  let completedOffers := myOffers.filter (fun o => o.status == OfferStatus.COMPLETED)
  let reviewedOfferIds := state.reviews.map (fun r => r.offerId)
  completedOffers.filter (fun o => !(reviewedOfferIds.contains o.id))

/-- getAvailableHomeownerActionsForUser from agents/autonomous.agent.ts. -/
def getAvailableHomeownerActionsForUser (state : TestAgentState)
    (user : TestUser) : List AnyAction :=
  let actions : List AnyAction := [.create_job]
  let myJobs := state.jobs.filter (fun j => j.createdBy == user.id)
  let actions := if myJobs.length > 0 then actions ++ [.view_applications] else actions
  let myJobIds := myJobs.map (fun j => j.id)
  let applicationsToMyJobs :=
    state.applications.filter (fun a => myJobIds.contains a.jobId)
  let actions :=
    if applicationsToMyJobs.length > 0 then
      actions ++ [.shortlist_applicant, .make_offer]
    else actions
  let myOffers := state.offers.filter (fun o => o.homeownerId == user.id)
  let acceptedOffers := myOffers.filter (fun o => o.status == OfferStatus.ACCEPTED)
  let actions := if acceptedOffers.length > 0 then actions ++ [.complete_job] else actions
  let unreviewedOffers := offersAvailableToReview state user
  if unreviewedOffers.length > 0 then actions ++ [.leave_review] else actions

/-- getAvailableTradespersonActionsForUser from agents/autonomous.agent.ts.
Note that the source pushes apply_to_job whenever the user has fewer
than 5 applications, with no check that an OPEN job exists (its comment
reads: Always allow apply_to_job). -/
def getAvailableTradespersonActionsForUser (state : TestAgentState)
    (user : TestUser) : List AnyAction :=
  let actions : List AnyAction := [.browse_jobs, .view_offers, .view_reviews]
  let myApplications :=
    state.applications.filter (fun a => a.applicantId == user.id)
  let actions := if myApplications.length < 5 then actions ++ [.apply_to_job] else actions
  let pendingOffers := state.offers.filter
    (fun o => o.tradespersonId == user.id && o.status == OfferStatus.PENDING)
  if pendingOffers.length > 0 then actions ++ [.accept_offer, .reject_offer] else actions

/-- getAvailableBusinessActionsForUser from agents/autonomous.agent.ts. -/
def getAvailableBusinessActionsForUser (state : TestAgentState)
    (user : TestUser) : List AnyAction :=
  let actions : List AnyAction := [.create_job, .view_offers]
  let myJobs := state.jobs.filter (fun j => j.createdBy == user.id)
  let actions := if myJobs.length > 0 then actions ++ [.view_applications] else actions
  let myJobIds := myJobs.map (fun j => j.id)
  let applicationsToMyJobs :=
    state.applications.filter (fun a => myJobIds.contains a.jobId)
  let actions := if applicationsToMyJobs.length > 0 then actions ++ [.make_offer] else actions
  let myOffers := state.offers.filter (fun o => o.homeownerId == user.id)
  let acceptedOffers := myOffers.filter (fun o => o.status == OfferStatus.ACCEPTED)
  let actions := if acceptedOffers.length > 0 then actions ++ [.complete_job] else actions
  let unreviewedOffers := offersAvailableToReview state user
  if unreviewedOffers.length > 0 then actions ++ [.leave_review] else actions

/-- getAvailableActions from agents/autonomous.agent.ts: dispatch on the
role of the user; roles with no autonomous behavior get the empty set. -/
def getAvailableActions (state : TestAgentState) (user : TestUser) :
    List AnyAction :=
  match user.role with
  | .homeowner => getAvailableHomeownerActionsForUser state user
  | .tradesperson => getAvailableTradespersonActionsForUser state user
  | .business => getAvailableBusinessActionsForUser state user
  | _ => []

/-! ## Goal Evaluator (agents/autonomous.agent.ts) -/

/-- SimulationGoals from agents/autonomous.agent.ts. -/
structure SimulationGoals where
  minJobs : ℕ
  minApplications : ℕ
  minAcceptedOffers : ℕ
  minReviews : ℕ
  maxIterations : ℕ
deriving DecidableEq, Repr

/-- DEFAULT_GOALS from agents/autonomous.agent.ts. -/
def DEFAULT_GOALS : SimulationGoals :=
  { minJobs := 30
    minApplications := 60
    minAcceptedOffers := 15
    minReviews := 10
    maxIterations := 50 }

/-- checkGoalsCompleted from agents/autonomous.agent.ts. -/
def checkGoalsCompleted (state : TestAgentState) (goals : SimulationGoals) :
    Bool :=
  decide (goals.minJobs ≤ state.jobs.length) &&
  decide (goals.minApplications ≤ state.applications.length) &&
  decide (goals.minAcceptedOffers ≤
    (state.offers.filter (fun o =>
      o.status == OfferStatus.ACCEPTED || o.status == OfferStatus.COMPLETED)).length) &&
  decide (goals.minReviews ≤ state.reviews.length)

/-! ## Action Policy (agents/autonomous.agent.ts) -/

/-- Concrete parameters attached to a decision.  The source carries them
as a JSON record keyed by the action name with optional fields; each
constructor below embeds one shape, with Option for the fields that the
TypeScript interface marks optional.  ActionParams.empty embeds the
empty record returned when no candidate entity exists. -/
inductive ActionParams
  | empty
  | applyToJobP (jobId : String) (estimatedCost : Option ℤ) (message : Option String)
  | makeOfferP (jobId : String) (tradespersonProfileId : String)
      (applicationId : Option String) (budget : ℚ)
  | respondOfferP (offerId : String)
  | completeJobP (offerId : String)
  | leaveReviewP (offerId : String) (rating : Option ℤ) (feedback : Option String)
  | viewApplicationsP (jobId : String)
  | shortlistP (applicationId : String)
deriving DecidableEq, Repr

/-- generateActionParams from agents/autonomous.agent.ts.  Math.random()
is passed in as rand (one draw suffices: each branch draws at most
once).  The apply cost is floor of budget times (0.85 + rand times 0.2);
the review rating is floor of rand times 2, plus 4. -/
def generateActionParams (state : TestAgentState) (user : TestUser)
    (action : AnyAction) (rand : ℚ) : ActionParams :=
  let myJobs := state.jobs.filter (fun j => j.createdBy == user.id)
  let myJobIds := myJobs.map (fun j => j.id)
  let myOffers := state.offers.filter
    (fun o => o.homeownerId == user.id || o.tradespersonId == user.id)
  let myApplications :=
    state.applications.filter (fun a => a.applicantId == user.id)
  match action with
  | .apply_to_job =>
      let appliedJobIds := myApplications.map (fun a => a.jobId)
      match state.jobs.find? (fun j =>
          j.status == JobStatus.OPEN && !(appliedJobIds.contains j.id) &&
          j.createdBy != user.id) with
      | some availableJob =>
          .applyToJobP availableJob.id
            (some ⌊availableJob.budget * (85/100 + rand * (20/100))⌋)
            (some "I am interested in this job and have the required experience.")
      | none => .empty
  | .make_offer =>
      let applicationsToMyJobs :=
        state.applications.filter (fun a => myJobIds.contains a.jobId)
      match applicationsToMyJobs.find? (fun a =>
          a.status == AppStatus.UR || a.status == AppStatus.S) with
      | some pendingApplication =>
          let tradespersonProfileId :=
            match pendingApplication.tradespersonProfileId with
            | some t => some t
            | none =>
                match state.testUsers.find?
                    (fun u => u.id == pendingApplication.applicantId) with
                | some applicant => applicant.tradespersonProfileId
                | none => none
          match state.jobs.find? (fun j => j.id == pendingApplication.jobId),
              tradespersonProfileId with
          | some job, some tpid =>
              .makeOfferP pendingApplication.jobId tpid
                (some pendingApplication.id)
                (if pendingApplication.estimatedCost == 0 then job.budget
                 else pendingApplication.estimatedCost)
          | _, _ => .empty
      | none => .empty
  | .accept_offer =>
      match myOffers.find? (fun o =>
          o.status == OfferStatus.PENDING && o.tradespersonId == user.id) with
      | some pendingOffer => .respondOfferP pendingOffer.id
      | none => .empty
  | .reject_offer =>
      match myOffers.find? (fun o =>
          o.status == OfferStatus.PENDING && o.tradespersonId == user.id) with
      | some pendingOffer => .respondOfferP pendingOffer.id
      | none => .empty
  | .complete_job =>
      match myOffers.find? (fun o =>
          o.status == OfferStatus.ACCEPTED && o.homeownerId == user.id) with
      | some acceptedOffer => .completeJobP acceptedOffer.id
      | none => .empty
  | .leave_review =>
      let reviewedOfferIds := state.reviews.map (fun r => r.offerId)
      match myOffers.find? (fun o =>
          o.status == OfferStatus.COMPLETED && o.homeownerId == user.id &&
          !(reviewedOfferIds.contains o.id)) with
      | some completedOffer =>
          .leaveReviewP completedOffer.id (some (⌊rand * 2⌋ + 4))
            (some "Great work! Professional and completed on time.")
      | none => .empty
  | .view_applications =>
      match myJobs.find? (fun j =>
          state.applications.any (fun a => a.jobId == j.id)) with
      | some jobWithApplications => .viewApplicationsP jobWithApplications.id
      | none => .empty
  | _ => .empty

/-- AgentDecision from agents/autonomous.agent.ts. -/
structure AgentDecision where
  action : AnyAction
  reasoning : String
  params : ActionParams
deriving DecidableEq, Repr

/-- The per-role deterministic priority table of decideWithHeuristics. -/
def priorityOrder (role : UserRole) : List AnyAction :=
  match role with
  | .homeowner =>
      [.leave_review, .complete_job, .make_offer, .view_applications, .create_job]
  | .tradesperson =>
      [.accept_offer, .apply_to_job, .browse_jobs, .view_offers, .view_reviews]
  | .business =>
      [.leave_review, .complete_job, .make_offer, .view_applications,
       .create_job, .view_offers]
  | .team_member => []
  | .admin => []

/-- decideWithHeuristics from agents/autonomous.agent.ts: first available
action in priority order, else the first element of the availability
set, else null. -/
def decideWithHeuristics (state : TestAgentState) (user : TestUser)
    (availableActions : List AnyAction) (rand : ℚ) : Option AgentDecision :=
  match (priorityOrder user.role).find?
      (fun action => availableActions.contains action) with
  | some action =>
      some { action := action
             reasoning := "Heuristic: " ++ actionName action ++
               " is the highest priority available action"
             params := generateActionParams state user action rand }
  | none =>
      match availableActions with
      | action :: _ =>
          some { action := action
                 reasoning := "Heuristic: defaulting to first available action"
                 params := generateActionParams state user action rand }
      | [] => none

/-- Outcome of one Decision Service consultation, supplied as an oracle:
the call may throw or return unparseable text (failure), return the
WAIT sentinel, or return a structured decision. -/
inductive LLMOutcome
  | failure
  | wait (reasoning : String)
  | suggests (d : AgentDecision)
deriving DecidableEq, Repr

/-- decideNextAction from agents/autonomous.agent.ts.  The goals list
only feeds the natural-language prompt, so it does not appear.  A WAIT
response returns null; a failed call or a suggested action outside the
availability set falls back to decideWithHeuristics. -/
def decideNextAction (state : TestAgentState) (user : TestUser)
    (useLLM : Bool) (llm : LLMOutcome) (rand : ℚ) : Option AgentDecision :=
  let availableActions := getAvailableActions state user
  if availableActions.isEmpty then none
  else if !useLLM then decideWithHeuristics state user availableActions rand
  else
    match llm with
    | .wait _ => none
    | .failure => decideWithHeuristics state user availableActions rand
    | .suggests d =>
        if availableActions.contains d.action then some d
        else decideWithHeuristics state user availableActions rand

/-! ## Action Executor (role agents and executeAction)

The Action Tool Surface is an external collaborator: each operation
either returns a record or throws.  A ToolOracle supplies the outcome
of each operation for one agent call; the two Math.random draws made
inside the executor (the random db-job pick and the fallback cost
factor) are supplied as randPick and rand. -/

structure ToolOracle where
  getMatchingJobs : Except String (List TestJob)
  createJob : Except String TestJob
  applyToJob : Except String TestApplication
  getJobApplications : Except String (List TestApplication)
  updateApplicationStatus : Except String Unit
  createOffer : Except String TestOffer
  respondToOffer : Except String Unit
  completeOffer : Except String Unit
  createReview : Except String TestReview
  getOffers : Except String (List TestOffer)
  getTradespersonReviews : Except String (List TestReview)
  randPick : ℕ
  rand : ℚ
deriving Repr

/-- In-place update of the first list element satisfying p, mirroring
the findIndex-then-assign idiom of the agents; a no-op when no element
matches (findIndex negative). -/
def updateFirst {α : Type} (l : List α) (p : α → Bool) (f : α → α) : List α :=
  match l with
  | [] => []
  | x :: xs => if p x then f x :: xs else x :: updateFirst xs p f

/-- One step of the view-applications sync loop of the homeowner and
business agents: replace the stored application with the same id, or
push it when absent. -/
def syncApp (apps : List TestApplication) (app : TestApplication) :
    List TestApplication :=
  if apps.any (fun a => a.id == app.id) then
    updateFirst apps (fun a => a.id == app.id) (fun _ => app)
  else apps ++ [app]

/-- The try-block of tradespersonAgent from agents/tradesperson.agent.ts:
each case calls its tool operation and applies the local state updates;
a thrown error is an Except.error.  Every mutation in the source occurs
after the last fallible step of its case, so the error case carries no
partial update. -/
def tradespersonRun (state : TestAgentState) (tradesperson : TestUser)
    (action : AnyAction) (params : ActionParams) (tools : ToolOracle) :
    Except String TestAgentState :=
  match action with
  | .browse_jobs =>
      match tools.getMatchingJobs with
      | .error e => .error e
      | .ok jobs =>
          .ok { state with messages := state.messages ++
            ["Tradesperson found " ++ toString jobs.length ++ " matching jobs"] }
  | .apply_to_job =>
      let jobId0 : Option String :=
        match params with | .applyToJobP jid _ _ => some jid | _ => none
      -- First try jobs in state
      let stage1 : Option (String × ℚ) :=
        match jobId0 with
        | some jid => some (jid, 200)
        | none =>
            if state.jobs.length > 0 then
              let appliedJobIds := (state.applications.filter
                (fun a => a.applicantId == tradesperson.id)).map (fun a => a.jobId)
              let openJobs := state.jobs.filter (fun j =>
                j.status == JobStatus.OPEN && !(appliedJobIds.contains j.id) &&
                j.createdBy != tradesperson.id)
              match openJobs with
              | j :: _ => some (j.id, j.budget)
              | [] => none
            else none
      -- If still no job, query the database for available jobs
      let chosen : Except String (Option (String × ℚ)) :=
        match stage1 with
        | some x => .ok (some x)
        | none =>
            match tools.getMatchingJobs with
            | .error e => .error e
            | .ok dbJobs =>
                match dbJobs.get? (tools.randPick % dbJobs.length) with
                | some randomJob =>
                    .ok (some (randomJob.id,
                      if randomJob.budget == 0 then 200 else randomJob.budget))
                | none => .ok none
      match chosen with
      | .error e => .error e
      | .ok none => Except.error "No jobs available to apply to"
      | .ok (some (jobId, jobBudget)) =>
          -- cost argument fed to the tool call (80 to 120 percent of budget)
          let _estimatedCost : ℤ :=
            match params with
            | .applyToJobP _ (some c) _ =>
                if c == 0 then ⌊jobBudget * (80/100 + tools.rand * (40/100))⌋
                else c
            | _ => ⌊jobBudget * (80/100 + tools.rand * (40/100))⌋
          match tools.applyToJob with
          | .error e => .error e
          | .ok application =>
              .ok { state with
                applications := state.applications ++ [application]
                messages := state.messages ++
                  ["Tradesperson applied to job " ++ jobId] }
  | .view_offers =>
      match tools.getOffers with
      | .error e => .error e
      | .ok offers =>
          .ok { state with messages := state.messages ++
            ["Tradesperson viewed " ++ toString offers.length ++ " offers"] }
  | .accept_offer =>
      let offerId0 : Option String :=
        match params with | .respondOfferP oid => some oid | _ => none
      -- If no offer ID provided, accept first pending offer
      let offerId1 : Option String :=
        match offerId0 with
        | some oid => some oid
        | none =>
            match state.offers.filter (fun o => o.status == OfferStatus.PENDING) with
            | o :: _ => some o.id
            | [] => none
      match offerId1 with
      | none => Except.error "No offer ID provided and no pending offers in state"
      | some offerId =>
          match tools.respondToOffer with
          | .error e => .error e
          | .ok _ =>
              let offers1 := updateFirst state.offers (fun o => o.id == offerId)
                (fun o => { o with status := OfferStatus.ACCEPTED })
              let jobs1 :=
                match offers1.find? (fun o => o.id == offerId) with
                | some offer =>
                    updateFirst state.jobs (fun j => j.id == offer.jobId)
                      (fun j => { j with status := JobStatus.IN_PROGRESS })
                | none => state.jobs
              .ok { state with
                offers := offers1
                jobs := jobs1
                messages := state.messages ++
                  ["Tradesperson accepted offer " ++ offerId] }
  | .reject_offer =>
      match params with
      | .respondOfferP offerId =>
          match tools.respondToOffer with
          | .error e => .error e
          | .ok _ =>
              .ok { state with
                offers := updateFirst state.offers (fun o => o.id == offerId)
                  (fun o => { o with status := OfferStatus.REJECTED })
                messages := state.messages ++
                  ["Tradesperson rejected offer " ++ offerId] }
      | _ => Except.error "No offer ID provided"
  | .view_reviews =>
      match tradesperson.tradespersonProfileId with
      | none => Except.error "Tradesperson profile ID not found"
      | some _ =>
          match tools.getTradespersonReviews with
          | .error e => .error e
          | .ok reviews =>
              .ok { state with messages := state.messages ++
                ["Tradesperson viewed " ++ toString reviews.length ++ " reviews"] }
  | _ => Except.error ("Unknown tradesperson action: " ++ actionName action)

/-- tradespersonAgent from agents/tradesperson.agent.ts: find the first
tradesperson user (returning early, with no history append, when none
exists), run the action, convert a thrown error into an unsuccessful
record with the error text pushed to the error list and message log,
and append the record to the action history exactly once on both
paths. -/
def tradespersonAgent (state : TestAgentState) (action : AnyAction)
    (params : ActionParams) (tools : ToolOracle) :
    TestAgentState × ActionResult :=
  match state.testUsers.find? (fun u => u.role == UserRole.tradesperson) with
  | none =>
      (state, { success := false, action, agentType := .tradesperson,
                userId := "", error := some "No tradesperson user found in state" })
  | some tradesperson =>
      match tradespersonRun state tradesperson action params tools with
      | .ok st =>
          let result : ActionResult :=
            { success := true, action, agentType := .tradesperson,
              userId := tradesperson.id, error := none }
          ({ st with actionHistory := st.actionHistory ++ [result] }, result)
      | .error e =>
          let result : ActionResult :=
            { success := false, action, agentType := .tradesperson,
              userId := tradesperson.id, error := some e }
          let st := { state with
            errors := state.errors ++
              ["Tradesperson " ++ actionName action ++ " failed: " ++ e],
            messages := state.messages ++
              ["Tradesperson action failed: " ++ actionName action ++ " - " ++ e] }
          ({ st with actionHistory := st.actionHistory ++ [result] }, result)

/-- The try-block of homeownerAgent from the homeowner agent module. -/
def homeownerRun (state : TestAgentState) (_homeowner : TestUser)
    (action : AnyAction) (params : ActionParams) (tools : ToolOracle) :
    Except String TestAgentState :=
  match action with
  | .create_job =>
      match tools.createJob with
      | .error e => .error e
      | .ok job =>
          .ok { state with
            jobs := state.jobs ++ [job]
            messages := state.messages ++ ["Homeowner created job: " ++ job.title] }
  | .view_applications =>
      let jobId0 : Option String :=
        match params with
        | .viewApplicationsP jid => some jid
        | _ => (state.jobs.head?).map (fun j => j.id)
      match jobId0 with
      | none => Except.error "No job ID provided and no jobs in state"
      | some jobId =>
          match tools.getJobApplications with
          | .error e => .error e
          | .ok fetched =>
              .ok { state with
                applications := fetched.foldl syncApp state.applications
                messages := state.messages ++
                  ["Homeowner viewed " ++ toString fetched.length ++
                   " applications for job " ++ jobId] }
  | .shortlist_applicant =>
      match params with
      | .shortlistP applicationId =>
          match tools.updateApplicationStatus with
          | .error e => .error e
          | .ok _ =>
              .ok { state with
                applications := updateFirst state.applications
                  (fun a => a.id == applicationId)
                  (fun a => { a with status := AppStatus.S })
                messages := state.messages ++
                  ["Homeowner shortlisted application " ++ applicationId] }
      | _ => Except.error "No application ID provided"
  | .make_offer =>
      match params with
      | .makeOfferP jobId _tpid _appId _budget =>
          match tools.createOffer with
          | .error e => .error e
          | .ok offer =>
              .ok { state with
                offers := state.offers ++ [offer]
                messages := state.messages ++
                  ["Homeowner made offer for job " ++ jobId] }
      | _ => Except.error "Job ID and tradesperson profile ID required"
  | .complete_job =>
      match params with
      | .completeJobP offerId =>
          match tools.completeOffer with
          | .error e => .error e
          | .ok _ =>
              .ok { state with
                offers := updateFirst state.offers (fun o => o.id == offerId)
                  (fun o => { o with status := OfferStatus.COMPLETED })
                messages := state.messages ++
                  ["Homeowner completed job (offer " ++ offerId ++ ")"] }
      | _ => Except.error "No offer ID provided"
  | .leave_review =>
      match params with
      | .leaveReviewP offerId _rating _feedback =>
          match tools.createReview with
          | .error e => .error e
          | .ok review =>
              .ok { state with
                reviews := state.reviews ++ [review]
                messages := state.messages ++
                  ["Homeowner left " ++ toString review.rating ++
                   "-star review for offer " ++ offerId] }
      | _ => Except.error "No offer ID provided"
  | _ => Except.error ("Unknown homeowner action: " ++ actionName action)

/-- homeownerAgent wrapper, same shape as tradespersonAgent. -/
def homeownerAgent (state : TestAgentState) (action : AnyAction)
    (params : ActionParams) (tools : ToolOracle) :
    TestAgentState × ActionResult :=
  match state.testUsers.find? (fun u => u.role == UserRole.homeowner) with
  | none =>
      (state, { success := false, action, agentType := .homeowner,
                userId := "", error := some "No homeowner user found in state" })
  | some homeowner =>
      match homeownerRun state homeowner action params tools with
      | .ok st =>
          let result : ActionResult :=
            { success := true, action, agentType := .homeowner,
              userId := homeowner.id, error := none }
          ({ st with actionHistory := st.actionHistory ++ [result] }, result)
      | .error e =>
          let result : ActionResult :=
            { success := false, action, agentType := .homeowner,
              userId := homeowner.id, error := some e }
          let st := { state with
            errors := state.errors ++
              ["Homeowner " ++ actionName action ++ " failed: " ++ e],
            messages := state.messages ++
              ["Homeowner action failed: " ++ actionName action ++ " - " ++ e] }
          ({ st with actionHistory := st.actionHistory ++ [result] }, result)

/-- The try-block of businessAgent from the business agent module. -/
def businessRun (state : TestAgentState) (business : TestUser)
    (action : AnyAction) (params : ActionParams) (tools : ToolOracle) :
    Except String TestAgentState :=
  match action with
  | .create_job =>
      match tools.createJob with
      | .error e => .error e
      | .ok job =>
          .ok { state with
            jobs := state.jobs ++ [job]
            messages := state.messages ++ ["Business created job: " ++ job.title] }
  | .view_applications =>
      let businessJobs := state.jobs.filter (fun j => j.createdBy == business.id)
      let jobId0 : Option String :=
        match params with
        | .viewApplicationsP jid => some jid
        | _ => (businessJobs.head?).map (fun j => j.id)
      match jobId0 with
      | none => Except.error "No job ID provided and no business jobs in state"
      | some targetJobId =>
          match tools.getJobApplications with
          | .error e => .error e
          | .ok fetched =>
              .ok { state with
                applications := fetched.foldl syncApp state.applications
                messages := state.messages ++
                  ["Business viewed " ++ toString fetched.length ++
                   " applications for job " ++ targetJobId] }
  | .make_offer =>
      match params with
      | .makeOfferP jobId _tpid _appId _budget =>
          match tools.createOffer with
          | .error e => .error e
          | .ok offer =>
              .ok { state with
                offers := state.offers ++ [offer]
                messages := state.messages ++
                  ["Business made offer for job " ++ jobId] }
      | _ => Except.error "Job ID and tradesperson profile ID required"
  | .view_offers =>
      match tools.getOffers with
      | .error e => .error e
      | .ok offers =>
          .ok { state with messages := state.messages ++
            ["Business viewed " ++ toString offers.length ++ " offers"] }
  | .complete_job =>
      match params with
      | .completeJobP offerId =>
          match tools.completeOffer with
          | .error e => .error e
          | .ok _ =>
              .ok { state with
                offers := updateFirst state.offers (fun o => o.id == offerId)
                  (fun o => { o with status := OfferStatus.COMPLETED })
                messages := state.messages ++
                  ["Business completed job (offer " ++ offerId ++ ")"] }
      | _ => Except.error "No offer ID provided"
  | .leave_review =>
      match params with
      | .leaveReviewP offerId _rating _feedback =>
          match tools.createReview with
          | .error e => .error e
          | .ok review =>
              .ok { state with
                reviews := state.reviews ++ [review]
                messages := state.messages ++
                  ["Business left " ++ toString review.rating ++
                   "-star review for offer " ++ offerId] }
      | _ => Except.error "No offer ID provided"
  | _ => Except.error ("Unknown business action: " ++ actionName action)

/-- businessAgent wrapper, same shape as tradespersonAgent. -/
def businessAgent (state : TestAgentState) (action : AnyAction)
    (params : ActionParams) (tools : ToolOracle) :
    TestAgentState × ActionResult :=
  match state.testUsers.find? (fun u => u.role == UserRole.business) with
  | none =>
      (state, { success := false, action, agentType := .business,
                userId := "", error := some "No business user found in state" })
  | some business =>
      match businessRun state business action params tools with
      | .ok st =>
          let result : ActionResult :=
            { success := true, action, agentType := .business,
              userId := business.id, error := none }
          ({ st with actionHistory := st.actionHistory ++ [result] }, result)
      | .error e =>
          let result : ActionResult :=
            { success := false, action, agentType := .business,
              userId := business.id, error := some e }
          let st := { state with
            errors := state.errors ++
              ["Business " ++ actionName action ++ " failed: " ++ e],
            messages := state.messages ++
              ["Business action failed: " ++ actionName action ++ " - " ++ e] }
          ({ st with actionHistory := st.actionHistory ++ [result] }, result)

/-- The splice-and-unshift reordering of executeAction: move the element
at the given index to the front. -/
def moveToFront (users : List TestUser) (idx : ℕ) : List TestUser :=
  match users.get? idx with
  | some u => u :: (users.take idx ++ users.drop (idx + 1))
  | none => users

/-- The move-to-front block at the top of executeAction in
agents/autonomous.agent.ts: move the acting user to the front of
testUsers so the role agent find call gets them. -/
def moveUserFirst (state : TestAgentState) (user : TestUser) :
    TestAgentState :=
  match state.testUsers.findIdx? (fun u => u.id == user.id) with
  | some userIndex =>
      if 0 < userIndex then
        { state with testUsers := moveToFront state.testUsers userIndex }
      else state
  | none => state

/-- executeAction from agents/autonomous.agent.ts: snapshot the user
list, move the acting user to the front so the role agent finds them,
dispatch by role, and restore the original user list on both the
success path and the rethrowing error path (the only throw inside the
try is the unsupported-role case; the role agents themselves never
throw).  The error value carries the state because the source mutates
the state in place before rethrowing. -/
def executeAction (state : TestAgentState) (user : TestUser)
    (d : AgentDecision) (tools : ToolOracle) :
    Except (TestAgentState × String) (TestAgentState × ActionResult) :=
  let originalUsers := state.testUsers
  let state1 := moveUserFirst state user
  match user.role with
  | .homeowner =>
      let (st, result) := homeownerAgent state1 d.action d.params tools
      .ok ({ st with testUsers := originalUsers }, result)
  | .tradesperson =>
      let (st, result) := tradespersonAgent state1 d.action d.params tools
      .ok ({ st with testUsers := originalUsers }, result)
  | .business =>
      let (st, result) := businessAgent state1 d.action d.params tools
      .ok ({ st with testUsers := originalUsers }, result)
  | _ => .error ({ state1 with testUsers := originalUsers }, "Unsupported role")

/-! ## Simulation Loop (graph/orchestrator.ts, autonomous graph) -/

/-- SimulationConfig from graph/orchestrator.ts. -/
structure SimulationConfig where
  homeownerCount : ℕ
  tradespersonCount : ℕ
  businessCount : ℕ
  goals : SimulationGoals
  useLLM : Bool
  delayBetweenActions : ℕ
  maxWaitCycles : ℕ
deriving DecidableEq, Repr

/-- DEFAULT_CONFIG from graph/orchestrator.ts. -/
def DEFAULT_CONFIG : SimulationConfig :=
  { homeownerCount := 3
    tradespersonCount := 6
    businessCount := 2
    goals := DEFAULT_GOALS
    useLLM := true
    delayBetweenActions := 500
    maxWaitCycles := 5 }

/-- AutonomousState from graph/orchestrator.ts: the World State plus the
per-run bookkeeping.  The JS Set of waiting agent ids becomes a list
with membership-checked insertion; the JS Map from agent id to last
productive iteration becomes an association list.  The agentGoals map
only feeds prompt text and is omitted. -/
structure AutonomousState extends TestAgentState where
  simulationConfig : SimulationConfig
  currentIteration : ℕ
  waitingAgents : List String
  lastActionByAgent : List (String × ℕ)
deriving DecidableEq, Repr

/-- Set.add of the waiting-agents set. -/
def addWaiting (w : List String) (id : String) : List String :=
  if w.contains id then w else id :: w

/-- Set.delete of the waiting-agents set. -/
def delWaiting (w : List String) (id : String) : List String :=
  w.filter (fun x => x != id)

/-- Map.get with the source fallback (lastActionByAgent.get(id) or 0). -/
def lookupLastAction (m : List (String × ℕ)) (id : String) : ℕ :=
  match m.find? (fun p => p.1 == id) with
  | some p => p.2
  | none => 0

/-- Map.set of lastActionByAgent. -/
def setLastAction (m : List (String × ℕ)) (id : String) (v : ℕ) :
    List (String × ℕ) :=
  (id, v) :: m.filter (fun p => p.1 != id)

/-- The control inputs consumed by one agent turn of the loop: the
Decision Service outcome, the Math.random draw of generateActionParams,
and the Action Tool Surface outcomes. -/
structure TurnOracle where
  llm : LLMOutcome
  rand : ℚ
  tools : ToolOracle
deriving Repr

/-- One agent turn of autonomousLoop from graph/orchestrator.ts: skip the
agent when it is flagged waiting and its stall duration exceeds
maxWaitCycles; otherwise compute availability, flag waiting when empty,
else clear the flag, decide, execute, record the iteration on success,
and convert an exception from executeAction into an error-list entry
(the catch around the decide-execute block). -/
def processAgent (state : AutonomousState) (agent : TestUser)
    (o : TurnOracle) : AutonomousState :=
  let config := state.simulationConfig
  let lastAction := lookupLastAction state.lastActionByAgent agent.id
  let waitCycles := state.currentIteration - lastAction
  if state.waitingAgents.contains agent.id && config.maxWaitCycles < waitCycles
  then state
  else
    let availableActions := getAvailableActions state.toTestAgentState agent
    if availableActions.isEmpty then
      { state with waitingAgents := addWaiting state.waitingAgents agent.id }
    else
      let state1 :=
        { state with waitingAgents := delWaiting state.waitingAgents agent.id }
      match decideNextAction state1.toTestAgentState agent config.useLLM
          o.llm o.rand with
      | none =>
          { state1 with waitingAgents := addWaiting state1.waitingAgents agent.id }
      | some decision =>
          match executeAction state1.toTestAgentState agent decision o.tools with
          | .ok (newBase, result) =>
              let state2 := { state1 with toTestAgentState := newBase }
              if result.success then
                let m := setLastAction state2.lastActionByAgent agent.id
                  state2.currentIteration
                { state2 with lastActionByAgent := m }
              else state2
          | .error (newBase, msg) =>
              let base1 := { newBase with errors := newBase.errors ++
                ["Agent " ++ agent.fullName ++ " error: " ++ msg] }
              { state1 with toTestAgentState := base1 }

/-- One full iteration of autonomousLoop: increment the iteration
counter, then process each agent of the shuffled order in turn.  The
shuffled order and the per-turn oracles are explicit inputs (the
source shuffles with Math.random). -/
def autonomousLoopIter (state : AutonomousState)
    (shuffledAgents : List TestUser) (oracles : List TurnOracle) :
    AutonomousState :=
  let state := { state with currentIteration := state.currentIteration + 1 }
  (shuffledAgents.zip oracles).foldl
    (fun s p => processAgent s p.1 p.2) state

/-- shouldContinue from graph/orchestrator.ts (autonomous graph): stop
on failed status, on reaching max iterations, on all goals met, or on
more than 20 accumulated errors (which also marks the run failed);
otherwise continue looping.  The returned pair is the next node name
and the possibly updated state. -/
def shouldContinue (state : AutonomousState) : String × AutonomousState :=
  if state.status == RunStatus.failed then ("cleanup", state)
  else if state.simulationConfig.goals.maxIterations ≤ state.currentIteration
  then ("cleanup", state)
  else if checkGoalsCompleted state.toTestAgentState state.simulationConfig.goals
  then ("cleanup", state)
  else if 20 < state.errors.length then
    ("cleanup", { state with status := RunStatus.failed })
  else ("autonomous_loop", state)

/-- finalize from graph/orchestrator.ts (autonomous graph): completed
when all four goals are met; otherwise failed when more than 10 errors
accumulated; otherwise completed with goals unmet. -/
def finalize (state : AutonomousState) : AutonomousState :=
  let goals := state.simulationConfig.goals
  let jobsGoal := goals.minJobs ≤ state.jobs.length
  let appsGoal := goals.minApplications ≤ state.applications.length
  let offersGoal := goals.minAcceptedOffers ≤
    (state.offers.filter (fun o =>
      o.status == OfferStatus.ACCEPTED || o.status == OfferStatus.COMPLETED)).length
  let reviewsGoal := goals.minReviews ≤ state.reviews.length
  if jobsGoal ∧ appsGoal ∧ offersGoal ∧ reviewsGoal then
    { state with status := RunStatus.completed }
  else if 10 < state.errors.length then
    { state with status := RunStatus.failed }
  else
    { state with status := RunStatus.completed }

/-- The minimum-role-mix check at the end of the user-creation node of
the autonomous graph: the run fails outright when no homeowner or no
tradesperson could be created, and starts running otherwise. -/
def minimumRoleCheck (state : AutonomousState) : AutonomousState :=
  let homeowners :=
    (state.testUsers.filter (fun u => u.role == UserRole.homeowner)).length
  let tradespersons :=
    (state.testUsers.filter (fun u => u.role == UserRole.tradesperson)).length
  if homeowners == 0 || tradespersons == 0 then
    { state with
      errors := state.errors ++ ["Need at least one homeowner and one tradesperson"]
      status := RunStatus.failed }
  else { state with status := RunStatus.running }

/-! ## Shared helper lemmas and concrete fixtures -/

/-- The empty World State (createInitialState with running status). -/
def emptyState : TestAgentState :=
  { testUsers := []
    jobs := []
    applications := []
    offers := []
    reviews := []
    actionHistory := []
    errors := []
    status := RunStatus.running
    messages := [] }

/-- A concrete tradesperson user. -/
def tpUser : TestUser :=
  { id := "t1"
    email := "t1@test.workmate.local"
    role := UserRole.tradesperson
    tradespersonProfileId := some "tp1"
    fullName := "Trade One" }

/-- A concrete homeowner user. -/
def hoUser : TestUser :=
  { id := "h1"
    email := "h1@test.workmate.local"
    role := UserRole.homeowner
    tradespersonProfileId := none
    fullName := "Home One" }

/-- Boolean-to-Prop reading of the goal evaluator, shared by the C2 and
C4 developments. -/
theorem checkGoalsCompleted_iff (state : TestAgentState)
    (goals : SimulationGoals) :
    checkGoalsCompleted state goals = true ↔
      (goals.minJobs ≤ state.jobs.length ∧
       goals.minApplications ≤ state.applications.length ∧
       goals.minAcceptedOffers ≤
         (state.offers.filter (fun o =>
           o.status == OfferStatus.ACCEPTED ||
           o.status == OfferStatus.COMPLETED)).length ∧
       goals.minReviews ≤ state.reviews.length) := by
  simp [checkGoalsCompleted, and_assoc]

/-! ## C4 -/

/-- C4: the Goal Evaluator returns true iff all four counts meet or
exceed their thresholds (Job count, Application count, count of Offers
whose status is ACCEPTED or COMPLETED, Review count), and any one count
falling below its threshold forces a false result. -/
theorem C4_goal_evaluator (state : TestAgentState) (goals : SimulationGoals) :
    (checkGoalsCompleted state goals = true ↔
      (goals.minJobs ≤ state.jobs.length ∧
       goals.minApplications ≤ state.applications.length ∧
       goals.minAcceptedOffers ≤ (state.offers.filter (fun o =>
         decide (o.status = OfferStatus.ACCEPTED ∨
                 o.status = OfferStatus.COMPLETED))).length ∧
       goals.minReviews ≤ state.reviews.length)) ∧
    (state.jobs.length < goals.minJobs →
      checkGoalsCompleted state goals = false) ∧
    (state.applications.length < goals.minApplications →
      checkGoalsCompleted state goals = false) ∧
    ((state.offers.filter (fun o =>
        decide (o.status = OfferStatus.ACCEPTED ∨
                o.status = OfferStatus.COMPLETED))).length <
        goals.minAcceptedOffers →
      checkGoalsCompleted state goals = false) ∧
    (state.reviews.length < goals.minReviews →
      checkGoalsCompleted state goals = false) := by
  have hpred : (fun o : TestOffer =>
      decide (o.status = OfferStatus.ACCEPTED ∨
              o.status = OfferStatus.COMPLETED)) =
      (fun o : TestOffer =>
        o.status == OfferStatus.ACCEPTED ||
        o.status == OfferStatus.COMPLETED) := by
    funext o
    cases o.status <;> rfl
  rw [hpred]
  constructor
  · exact checkGoalsCompleted_iff state goals
  refine ⟨?_, ?_, ?_, ?_⟩ <;>
    · intro hlt
      rcases hb : checkGoalsCompleted state goals with _ | _
      · rfl
      · exact absurd ((checkGoalsCompleted_iff state goals).mp hb)
          (by intro hall; omega)

/-! ## C1 -/

/-- A World State with one tradesperson, no jobs at all and no
applications, used to refute C1. -/
def c1State : TestAgentState :=
  { emptyState with testUsers := [tpUser] }

/-- C1 counterexample: with no Job in the state at all (so in particular
no OPEN Job the actor could apply to) and zero applications,
apply_to_job is nevertheless offered to the tradesperson, refuting the
claimed only-if direction of the availability rule. -/
theorem C1_counterexample :
    AnyAction.apply_to_job ∈ getAvailableActions c1State tpUser ∧
    ¬ ∃ j ∈ c1State.jobs, j.status = JobStatus.OPEN ∧
        j.createdBy ≠ tpUser.id ∧
        ∀ a ∈ c1State.applications,
          ¬ (a.applicantId = tpUser.id ∧ a.jobId = j.id) := by
  decide

/-- C1 amended: for a tradesperson, the availability resolver offers
apply_to_job iff the actor holds fewer than 5 Applications; the
existence of an OPEN Job the actor has not applied to and did not
create is not consulted. -/
theorem C1_apply_to_job_spam_cap_only (state : TestAgentState)
    (user : TestUser) (h : user.role = UserRole.tradesperson) :
    AnyAction.apply_to_job ∈ getAvailableActions state user ↔
      (state.applications.filter (fun a => a.applicantId == user.id)).length < 5 := by
  simp only [getAvailableActions, h]
  unfold getAvailableTradespersonActionsForUser
  dsimp only
  split_ifs with h1 h2 <;> simp_all

/-- C1 amended, witnessed at a concrete input. -/
theorem C1_apply_to_job_spam_cap_only_witness :
    AnyAction.apply_to_job ∈ getAvailableActions c1State tpUser ↔
      (c1State.applications.filter (fun a => a.applicantId == tpUser.id)).length < 5 :=
  C1_apply_to_job_spam_cap_only c1State tpUser rfl

/-! ## C10 -/

/-- The World State carried by an executeAction outcome: the returned
state on the success path, the state left behind by the rethrowing
catch on the error path. -/
def exceptState {e r : Type} (x : Except (TestAgentState × e) (TestAgentState × r)) :
    TestAgentState :=
  match x with
  | .ok (st, _) => st
  | .error (st, _) => st

/-- C10: executeAction restores the snapshot of testUsers on both the
success path and the error path, so for every state, user, decision and
tool outcome the set and order of users after the call is exactly what
it was at entry. -/
theorem C10_executeAction_restores_users (state : TestAgentState)
    (user : TestUser) (d : AgentDecision) (tools : ToolOracle) :
    (exceptState (executeAction state user d tools)).testUsers =
      state.testUsers := by
  unfold executeAction
  cases user.role <;> simp [exceptState]

/-! ## C2 -/

/-- Small goal thresholds for the C2 fixtures. -/
def c2Goals : SimulationGoals :=
  { minJobs := 1
    minApplications := 1
    minAcceptedOffers := 1
    minReviews := 1
    maxIterations := 5 }

/-- A concrete simulation configuration for the C2 fixtures. -/
def c2Config : SimulationConfig :=
  { homeownerCount := 1
    tradespersonCount := 1
    businessCount := 0
    goals := c2Goals
    useLLM := false
    delayBetweenActions := 0
    maxWaitCycles := 5 }

/-- Eleven accumulated execution errors: above the finalize threshold of
10, but well below the mid-run ceiling of 20. -/
def elevenErrors : List String :=
  ["e1", "e2", "e3", "e4", "e5", "e6", "e7", "e8", "e9", "e10", "e11"]

/-- A run that reached its iteration cap with unmet goals and eleven
recorded errors. -/
def c2State : AutonomousState :=
  { toTestAgentState :=
      { emptyState with testUsers := [hoUser, tpUser], errors := elevenErrors }
    simulationConfig := c2Config
    currentIteration := 5
    waitingAgents := []
    lastActionByAgent := [] }

/-- C2 counterexample: at the iteration cap with goals unmet, the loop
stops without marking failure, the error count (11) does not exceed the
configured ceiling of 20, the role mix was satisfied at creation, and
yet finalize reports the run as failed, refuting the claim that failed
arises only from more than 20 errors or a missing role mix. -/
theorem C2_counterexample :
    (shouldContinue c2State).1 = "cleanup" ∧
    (shouldContinue c2State).2.status = RunStatus.running ∧
    c2State.errors.length ≤ 20 ∧
    (c2State.testUsers.filter (fun u => u.role == UserRole.homeowner)).length ≠ 0 ∧
    (c2State.testUsers.filter (fun u => u.role == UserRole.tradesperson)).length ≠ 0 ∧
    checkGoalsCompleted c2State.toTestAgentState c2State.simulationConfig.goals
      = false ∧
    (finalize (shouldContinue c2State).2).status = RunStatus.failed := by
  decide

/-- C2 amended: reaching the iteration cap stops the loop without
marking failure, and the only mid-loop failure transition is an error
count above 20; but the final status reported by finalize is failed
exactly when the goals are not all met and more than 10 errors
accumulated (even when the error count never exceeded 20), and
completed otherwise; the initialization role-mix check fails the run
iff no homeowner or no tradesperson was created. -/
theorem C2_termination_status (s : AutonomousState) :
    ((finalize s).status = RunStatus.failed ↔
      (checkGoalsCompleted s.toTestAgentState s.simulationConfig.goals = false ∧
       10 < s.errors.length)) ∧
    (s.status ≠ RunStatus.failed →
      s.simulationConfig.goals.maxIterations ≤ s.currentIteration →
      shouldContinue s = ("cleanup", s)) ∧
    (s.status ≠ RunStatus.failed →
      s.currentIteration < s.simulationConfig.goals.maxIterations →
      checkGoalsCompleted s.toTestAgentState s.simulationConfig.goals = false →
      ((shouldContinue s).2.status = RunStatus.failed ↔ 20 < s.errors.length)) ∧
    ((minimumRoleCheck s).status = RunStatus.failed ↔
      ((s.testUsers.filter (fun u => u.role == UserRole.homeowner)).length = 0 ∨
       (s.testUsers.filter (fun u => u.role == UserRole.tradesperson)).length = 0)) := by
  have hiff := checkGoalsCompleted_iff s.toTestAgentState s.simulationConfig.goals
  refine ⟨?_, ?_, ?_, ?_⟩
  · unfold finalize
    dsimp only
    split_ifs with hg he
    · have : checkGoalsCompleted s.toTestAgentState s.simulationConfig.goals = true :=
        hiff.mpr hg
      simp [this]
    · have : checkGoalsCompleted s.toTestAgentState s.simulationConfig.goals = false := by
        rcases hb : checkGoalsCompleted s.toTestAgentState s.simulationConfig.goals with _ | _
        · rfl
        · exact absurd (hiff.mp hb) hg
      simp [this, he]
    · simp [he]
  · intro h1 h2
    unfold shouldContinue
    rw [if_neg (by simp [h1]), if_pos h2]
  · intro h1 h2 h3
    unfold shouldContinue
    rw [if_neg (by simp [h1]), if_neg (not_le.mpr h2), if_neg (by simp [h3])]
    split_ifs with hd
    · simp [hd]
    · simp [h1, hd]
  · unfold minimumRoleCheck
    dsimp only
    split_ifs with h <;> simp_all

/-- C2 amended, witnessed: at the concrete capped run the loop routes to
cleanup with the status untouched. -/
theorem C2_termination_status_witness :
    shouldContinue c2State = ("cleanup", c2State) :=
  (C2_termination_status c2State).2.1 (by decide) (by decide)

/-! ## C5 -/

/-- C5: with a non-empty availability set the deterministic fallback
policy always returns a decision; its action is the first available
action in the fixed per-role priority order, with the first element of
the availability set as the last resort when no table entry is
available; the job-poster table is exactly leave_review, complete_job,
make_offer, view_applications, create_job; and with useLLM false the
policy entry point defers to exactly this fallback. -/
theorem C5_heuristic_fallback (state : TestAgentState) (user : TestUser)
    (avail : List AnyAction) (rand : ℚ) (llm : LLMOutcome)
    (h : avail ≠ [])
    (ha : getAvailableActions state user = avail) :
    (∃ d, decideWithHeuristics state user avail rand = some d ∧
       d.action = (((priorityOrder user.role).find?
         (fun a => avail.contains a)).getD (avail.head h))) ∧
    priorityOrder UserRole.homeowner =
      [AnyAction.leave_review, AnyAction.complete_job, AnyAction.make_offer,
       AnyAction.view_applications, AnyAction.create_job] ∧
    decideNextAction state user false llm rand =
      decideWithHeuristics state user avail rand := by
  refine ⟨?_, rfl, ?_⟩
  · unfold decideWithHeuristics
    rcases hf : (priorityOrder user.role).find? (fun a => avail.contains a)
      with _ | a
    · rcases avail with _ | ⟨a0, rest⟩
      · exact absurd rfl h
      · exact ⟨_, rfl, rfl⟩
    · exact ⟨_, rfl, rfl⟩
  · rcases avail with _ | ⟨a0, rest⟩
    · exact absurd rfl h
    · unfold decideNextAction
      rw [ha]
      rfl

/-- C5 witnessed at a concrete input: a homeowner with an empty World
State has exactly one available action, create_job, and the fallback
chooses it through the priority table. -/
theorem C5_heuristic_fallback_witness :
    ∃ d, decideWithHeuristics emptyState hoUser [AnyAction.create_job] 0 = some d ∧
      d.action = (((priorityOrder hoUser.role).find?
        (fun a => [AnyAction.create_job].contains a)).getD
        ([AnyAction.create_job].head (by decide))) :=
  (C5_heuristic_fallback emptyState hoUser [AnyAction.create_job] 0
    LLMOutcome.failure (by decide) (by decide)).1

/-! ## C9 -/

/-- C9 amended: when the Decision Service supplied no concrete
parameters, the policy picks the first OPEN job not created by the
actor and not yet applied to, and synthesizes the estimated cost
floor(budget * (0.85 + 0.2 * rand)) with rand in [0, 1); for a positive
budget this cost lies strictly between 85 percent of the budget minus
one and 105 percent of the budget (hence at most 120 percent), but
flooring can take it below 85 percent of the budget. -/
theorem C9_apply_params_bounds (state : TestAgentState) (user : TestUser)
    (rand : ℚ) (j : TestJob)
    (h0 : 0 ≤ rand) (h1 : rand < 1) (hb : 0 < j.budget)
    (hj : state.jobs.find? (fun j0 =>
        j0.status == JobStatus.OPEN &&
        !(((state.applications.filter (fun a => a.applicantId == user.id)).map
            (fun a => a.jobId)).contains j0.id) &&
        j0.createdBy != user.id) = some j) :
    generateActionParams state user AnyAction.apply_to_job rand =
      ActionParams.applyToJobP j.id
        (some ⌊j.budget * (85/100 + rand * (20/100))⌋)
        (some "I am interested in this job and have the required experience.") ∧
    (85/100 : ℚ) * j.budget - 1 <
      (⌊j.budget * (85/100 + rand * (20/100))⌋ : ℚ) ∧
    (⌊j.budget * (85/100 + rand * (20/100))⌋ : ℚ) < (105/100) * j.budget ∧
    (⌊j.budget * (85/100 + rand * (20/100))⌋ : ℚ) ≤ (120/100) * j.budget := by
  have hfl := Int.sub_one_lt_floor (j.budget * (85/100 + rand * (20/100)))
  have hfu := Int.floor_le (j.budget * (85/100 + rand * (20/100)))
  refine ⟨?_, ?_, ?_, ?_⟩
  · unfold generateActionParams
    dsimp only
    rw [hj]
  · nlinarith
  · nlinarith
  · nlinarith

/-- An OPEN job with budget 10, used to refute the claimed 85-percent
lower bound. -/
def c9Job : TestJob :=
  { id := "j1"
    title := "Test Plumbing Job"
    category := "Plumbing"
    status := JobStatus.OPEN
    createdBy := "h1"
    budget := 10 }

/-- World State for the C9 counterexample. -/
def c9State : TestAgentState :=
  { emptyState with testUsers := [hoUser, tpUser], jobs := [c9Job] }

/-- C9 counterexample: on a budget of 10 with the random draw at 0, the
synthesized cost is floor(10 * 0.85) = 8, which is strictly below 85
percent of the budget (8.5), refuting the claimed lower bound. -/
theorem C9_counterexample :
    generateActionParams c9State tpUser AnyAction.apply_to_job 0 =
      ActionParams.applyToJobP "j1" (some 8)
        (some "I am interested in this job and have the required experience.") ∧
    ¬ ((85/100 : ℚ) * c9Job.budget ≤ ((8 : ℤ) : ℚ)) := by
  refine ⟨?_, by norm_num [c9Job]⟩
  have hfloor : ⌊(10 : ℚ) * (85/100 + (0 : ℚ) * (20/100))⌋ = (8 : ℤ) := by
    rw [Int.floor_eq_iff]
    norm_num
  show ActionParams.applyToJobP "j1"
      (some ⌊(10 : ℚ) * (85/100 + (0 : ℚ) * (20/100))⌋)
      (some "I am interested in this job and have the required experience.") =
    ActionParams.applyToJobP "j1" (some 8)
      (some "I am interested in this job and have the required experience.")
  rw [hfloor]

/-- C9 amended, witnessed at the concrete budget-10 input. -/
theorem C9_apply_params_bounds_witness :
    generateActionParams c9State tpUser AnyAction.apply_to_job 0 =
      ActionParams.applyToJobP c9Job.id
        (some ⌊c9Job.budget * (85/100 + (0 : ℚ) * (20/100))⌋)
        (some "I am interested in this job and have the required experience.") ∧
    (85/100 : ℚ) * c9Job.budget - 1 <
      (⌊c9Job.budget * (85/100 + (0 : ℚ) * (20/100))⌋ : ℚ) ∧
    (⌊c9Job.budget * (85/100 + (0 : ℚ) * (20/100))⌋ : ℚ) <
      (105/100) * c9Job.budget ∧
    (⌊c9Job.budget * (85/100 + (0 : ℚ) * (20/100))⌋ : ℚ) ≤
      (120/100) * c9Job.budget :=
  C9_apply_params_bounds c9State tpUser 0 c9Job (by norm_num)
    (by norm_num) (by norm_num [c9Job]) (by decide)

/-! ## C7 -/

/-- Membership characterization of the offers-available-to-review set. -/
theorem mem_offersAvailableToReview (state : TestAgentState) (user : TestUser)
    (o : TestOffer) :
    o ∈ offersAvailableToReview state user ↔
      (o ∈ state.offers ∧ o.homeownerId = user.id ∧
       o.status = OfferStatus.COMPLETED ∧
       ∀ r ∈ state.reviews, r.offerId ≠ o.id) := by
  constructor
  · intro hmem
    simp only [offersAvailableToReview, List.mem_filter] at hmem
    obtain ⟨⟨⟨ho, h1⟩, h2⟩, h3⟩ := hmem
    simp only [beq_iff_eq] at h1 h2
    simp at h3
    refine ⟨ho, h1, h2, ?_⟩
    intro r hr hre
    exact h3 r hr hre
  · rintro ⟨ho, h1, h2, h3⟩
    simp only [offersAvailableToReview, List.mem_filter]
    refine ⟨⟨⟨ho, by simp [h1]⟩, by simp [h2]⟩, ?_⟩
    have hnotin : o.id ∉ state.reviews.map (fun r => r.offerId) := by
      intro hin
      rcases List.mem_map.mp hin with ⟨r, hr, hre⟩
      exact h3 r hr hre
    simpa using hnotin
/-- leave_review membership in the homeowner availability list reduces
to non-emptiness of the offers-available-to-review set. -/
theorem leave_review_mem_homeowner (state : TestAgentState) (user : TestUser) :
    AnyAction.leave_review ∈ getAvailableHomeownerActionsForUser state user ↔
      0 < (offersAvailableToReview state user).length := by
  unfold getAvailableHomeownerActionsForUser
  dsimp only
  split_ifs <;>
    first
      | (refine iff_of_true (by decide) ?_; assumption)
      | (refine iff_of_false (by decide) ?_; assumption)

/-- leave_review membership in the business availability list reduces
to non-emptiness of the offers-available-to-review set. -/
theorem leave_review_mem_business (state : TestAgentState) (user : TestUser) :
    AnyAction.leave_review ∈ getAvailableBusinessActionsForUser state user ↔
      0 < (offersAvailableToReview state user).length := by
  unfold getAvailableBusinessActionsForUser
  dsimp only
  split_ifs <;>
    first
      | (refine iff_of_true (by decide) ?_; assumption)
      | (refine iff_of_false (by decide) ?_; assumption)

/-- C7: once a Review exists for an Offer, that Offer never appears in
the offers-available-to-review set for any actor; the parameter
synthesis for leave_review only ever picks a COMPLETED offer owned by
the actor with no existing review; and for the job-poster roles,
leave_review is available iff the actor owns at least one COMPLETED
offer with no existing review. -/
theorem C7_review_guard (state : TestAgentState) :
    (∀ (user : TestUser) (o : TestOffer),
       o ∈ offersAvailableToReview state user →
       ∀ r ∈ state.reviews, r.offerId ≠ o.id) ∧
    (∀ (user : TestUser) (rand : ℚ) (oid : String) (rt : Option ℤ)
       (fb : Option String),
       generateActionParams state user AnyAction.leave_review rand =
         ActionParams.leaveReviewP oid rt fb →
       ∃ o ∈ state.offers, o.id = oid ∧ o.status = OfferStatus.COMPLETED ∧
         o.homeownerId = user.id ∧ ∀ r ∈ state.reviews, r.offerId ≠ o.id) ∧
    (∀ user : TestUser,
       user.role = UserRole.homeowner ∨ user.role = UserRole.business →
       (AnyAction.leave_review ∈ getAvailableActions state user ↔
         ∃ o ∈ state.offers, o.homeownerId = user.id ∧
           o.status = OfferStatus.COMPLETED ∧
           ∀ r ∈ state.reviews, r.offerId ≠ o.id)) := by
  refine ⟨?_, ?_, ?_⟩
  · intro user o ho r hr
    exact ((mem_offersAvailableToReview state user o).mp ho).2.2.2 r hr
  · intro user rand oid rt fb hgen
    unfold generateActionParams at hgen
    dsimp only at hgen
    split at hgen
    · rename_i co heq
      injection hgen with hid hrt hfb
      have hpred := List.find?_some heq
      have hmem := List.mem_of_find?_eq_some heq
      simp only [Bool.and_eq_true, beq_iff_eq] at hpred
      obtain ⟨⟨hst, hho⟩, hcont⟩ := hpred
      simp only [List.mem_filter] at hmem
      refine ⟨co, hmem.1, hid.symm ▸ rfl, hst, hho, ?_⟩
      intro r hr hre
      simp at hcont
      exact hcont r hr hre
    · simp at hgen
  · intro user hrole
    rcases hrole with h | h
    · simp only [getAvailableActions, h]
      rw [leave_review_mem_homeowner, List.length_pos_iff_exists_mem]
      exact exists_congr (fun o => mem_offersAvailableToReview state user o)
    · simp only [getAvailableActions, h]
      rw [leave_review_mem_business, List.length_pos_iff_exists_mem]
      exact exists_congr (fun o => mem_offersAvailableToReview state user o)

/-- A COMPLETED offer owned by the concrete homeowner. -/
def c7Offer : TestOffer :=
  { id := "o1"
    jobId := "j1"
    homeownerId := "h1"
    tradespersonId := "t1"
    status := OfferStatus.COMPLETED
    budget := 300 }

/-- World State with one completed, unreviewed offer. -/
def c7State : TestAgentState :=
  { emptyState with testUsers := [hoUser, tpUser], offers := [c7Offer] }

/-- C7 witnessed at a concrete input: the homeowner owning one
COMPLETED unreviewed offer has leave_review available. -/
theorem C7_review_guard_witness :
    AnyAction.leave_review ∈ getAvailableActions c7State hoUser ↔
      ∃ o ∈ c7State.offers, o.homeownerId = hoUser.id ∧
        o.status = OfferStatus.COMPLETED ∧
        ∀ r ∈ c7State.reviews, r.offerId ≠ o.id :=
  (C7_review_guard c7State).2.2 hoUser (Or.inl rfl)

/-! ## C8 -/

/-- When the keys of a list are pairwise distinct, the in-place
first-match update equals updating every match (there is at most
one). -/
theorem updateFirst_eq_map {α : Type} (key : α → String) (upd : α → α)
    (kid : String) :
    ∀ l : List α, (l.map key).Nodup →
      updateFirst l (fun x => key x == kid) upd =
        l.map (fun x => if key x = kid then upd x else x) := by
  intro l
  induction l with
  | nil => intro _; rfl
  | cons x xs ih =>
      intro hnd
      rw [List.map_cons, List.nodup_cons] at hnd
      unfold updateFirst
      by_cases hx : key x = kid
      · rw [if_pos (by simp [hx]), List.map_cons, if_pos hx]
        congr 1
        have hall : ∀ y ∈ xs, (if key y = kid then upd y else y) = y := by
          intro y hy
          rw [if_neg]
          intro hk
          exact hnd.1 (by rw [hx, ← hk]; exact List.mem_map_of_mem key hy)
        rw [List.map_congr_left hall]
        simp
      · rw [if_neg (by simp [hx]), List.map_cons, if_neg hx, ih hnd.2]

/-- Under distinct keys, searching the updated list for the key finds
exactly the updated element. -/
theorem find?_key_map_update {α : Type} (key : α → String) (upd : α → α)
    (hupd : ∀ x, key (upd x) = key x) (kid : String) :
    ∀ l : List α, (l.map key).Nodup → ∀ o, o ∈ l → key o = kid →
      (l.map (fun x => if key x = kid then upd x else x)).find?
          (fun x => key x == kid) = some (upd o) := by
  intro l
  induction l with
  | nil =>
      intro _ o ho
      exact absurd ho (List.not_mem_nil o)
  | cons x xs ih =>
      intro hnd o ho hko
      rw [List.map_cons, List.nodup_cons] at hnd
      by_cases hx : key x = kid
      · have hox : o = x := by
          rcases List.mem_cons.mp ho with h | h
          · exact h
          · exact absurd (by rw [hx, ← hko]; exact List.mem_map_of_mem key h)
              hnd.1
        rw [List.map_cons, if_pos hx, List.find?_cons_of_pos]
        · rw [hox]
        · simp [hupd, hx]
      · rw [List.map_cons, if_neg hx, List.find?_cons_of_neg]
        · refine ih hnd.2 o ?_ hko
          rcases List.mem_cons.mp ho with h | h
          · exact absurd (h ▸ hko) hx
          · exact h
        · simp [hx]

/-- C8: accept_offer is available to a tradesperson iff some PENDING
offer is addressed to them; the parameter synthesis only ever picks a
PENDING offer addressed to the actor (so the policy never invokes an
accept on an already ACCEPTED offer); and executing accept_offer on an
offer with a given id transitions exactly that offer to ACCEPTED and
exactly the job with its jobId to IN_PROGRESS, exactly once each when
ids are unique. -/
theorem C8_accept_offer (state : TestAgentState) (user : TestUser)
    (tools : ToolOracle) (rand : ℚ) :
    (user.role = UserRole.tradesperson →
      (AnyAction.accept_offer ∈ getAvailableActions state user ↔
        ∃ o ∈ state.offers, o.tradespersonId = user.id ∧
          o.status = OfferStatus.PENDING)) ∧
    (∀ oid : String,
      generateActionParams state user AnyAction.accept_offer rand =
        ActionParams.respondOfferP oid →
      ∃ o ∈ state.offers, o.id = oid ∧ o.status = OfferStatus.PENDING ∧
        o.tradespersonId = user.id) ∧
    (∀ (tp : TestUser) (o : TestOffer),
      o ∈ state.offers → o.status = OfferStatus.PENDING →
      (state.offers.map (fun x => x.id)).Nodup →
      (state.jobs.map (fun x => x.id)).Nodup →
      tools.respondToOffer = Except.ok () →
      ∃ st, tradespersonRun state tp AnyAction.accept_offer
          (ActionParams.respondOfferP o.id) tools = Except.ok st ∧
        st.offers = state.offers.map (fun x =>
          if x.id = o.id then { x with status := OfferStatus.ACCEPTED } else x) ∧
        st.jobs = state.jobs.map (fun x =>
          if x.id = o.jobId then { x with status := JobStatus.IN_PROGRESS }
          else x)) := by
  refine ⟨?_, ?_, ?_⟩
  · intro h
    simp only [getAvailableActions, h]
    have hmem : AnyAction.accept_offer ∈
        getAvailableTradespersonActionsForUser state user ↔
        0 < (state.offers.filter (fun o =>
          o.tradespersonId == user.id && o.status == OfferStatus.PENDING)).length := by
      unfold getAvailableTradespersonActionsForUser
      dsimp only
      split_ifs <;>
        first
          | (refine iff_of_true (by decide) ?_; assumption)
          | (refine iff_of_false (by decide) ?_; assumption)
    rw [hmem, List.length_pos_iff_exists_mem]
    refine exists_congr fun o => ?_
    simp [List.mem_filter]
  · intro oid hgen
    unfold generateActionParams at hgen
    dsimp only at hgen
    split at hgen
    · rename_i po heq
      injection hgen with hid
      have hpred := List.find?_some heq
      have hmem2 := List.mem_of_find?_eq_some heq
      simp only [Bool.and_eq_true, beq_iff_eq] at hpred
      simp only [List.mem_filter] at hmem2
      exact ⟨po, hmem2.1, hid, hpred.1, hpred.2⟩
    · simp at hgen
  · intro tp o ho hst hndo hndj htool
    have hoff := updateFirst_eq_map (fun x : TestOffer => x.id)
      (fun x => { x with status := OfferStatus.ACCEPTED }) o.id
      state.offers hndo
    have hfind := find?_key_map_update (fun x : TestOffer => x.id)
      (fun x => { x with status := OfferStatus.ACCEPTED })
      (fun _ => rfl) o.id state.offers hndo o ho rfl
    have hjob := updateFirst_eq_map (fun x : TestJob => x.id)
      (fun x => { x with status := JobStatus.IN_PROGRESS }) o.jobId
      state.jobs hndj
    unfold tradespersonRun
    dsimp only
    rw [htool, hoff, hfind]
    dsimp only
    exact ⟨_, rfl, rfl, hjob⟩

/-- A PENDING offer addressed to the concrete tradesperson. -/
def c8Offer : TestOffer :=
  { id := "o8"
    jobId := "j8"
    homeownerId := "h1"
    tradespersonId := "t1"
    status := OfferStatus.PENDING
    budget := 250 }

/-- The job behind the C8 offer. -/
def c8Job : TestJob :=
  { id := "j8"
    title := "Fence Repair"
    category := "Carpentry"
    status := JobStatus.OPEN
    createdBy := "h1"
    budget := 250 }

/-- World State for the C8 witness. -/
def c8State : TestAgentState :=
  { emptyState with
    testUsers := [hoUser, tpUser]
    jobs := [c8Job]
    offers := [c8Offer] }

/-- A tool oracle whose accept call succeeds. -/
def c8Tools : ToolOracle :=
  { getMatchingJobs := Except.error "unused"
    createJob := Except.error "unused"
    applyToJob := Except.error "unused"
    getJobApplications := Except.error "unused"
    updateApplicationStatus := Except.error "unused"
    createOffer := Except.error "unused"
    respondToOffer := Except.ok ()
    completeOffer := Except.error "unused"
    createReview := Except.error "unused"
    getOffers := Except.error "unused"
    getTradespersonReviews := Except.error "unused"
    randPick := 0
    rand := 0 }

/-- C8 witnessed at a concrete input: accepting the pending offer o8
succeeds and yields the ACCEPTED offer and IN_PROGRESS job updates. -/
theorem C8_accept_offer_witness :
    ∃ st, tradespersonRun c8State tpUser AnyAction.accept_offer
        (ActionParams.respondOfferP c8Offer.id) c8Tools = Except.ok st ∧
      st.offers = c8State.offers.map (fun x =>
        if x.id = c8Offer.id then { x with status := OfferStatus.ACCEPTED }
        else x) ∧
      st.jobs = c8State.jobs.map (fun x =>
        if x.id = c8Offer.jobId then { x with status := JobStatus.IN_PROGRESS }
        else x) :=
  (C8_accept_offer c8State tpUser c8Tools 0).2.2 tpUser c8Offer
    (by decide) (by decide) (by decide) (by decide) rfl

/-! ## C3 -/

/-- The skip condition of the autonomous loop for one agent: flagged
waiting with a stall duration above the configured cap. -/
def skipCond (state : AutonomousState) (agent : TestUser) : Prop :=
  state.waitingAgents.contains agent.id = true ∧
  state.simulationConfig.maxWaitCycles <
    state.currentIteration - lookupLastAction state.lastActionByAgent agent.id

instance (state : AutonomousState) (agent : TestUser) :
    Decidable (skipCond state agent) := by
  unfold skipCond
  infer_instance

/-- Set insertion does not affect membership tests for other ids. -/
theorem contains_addWaiting (w : List String) (id x : String) (h : x ≠ id) :
    (addWaiting w id).contains x = w.contains x := by
  unfold addWaiting
  split_ifs with hw
  · rfl
  · simp [List.contains_cons, h]

/-- Set deletion does not affect membership tests for other ids. -/
theorem contains_delWaiting (w : List String) (id x : String) (h : x ≠ id) :
    (delWaiting w id).contains x = w.contains x := by
  unfold delWaiting
  by_cases hw : x ∈ w
  · have h1 : x ∈ w.filter (fun y => y != id) :=
      List.mem_filter.mpr ⟨hw, by simp [h]⟩
    simp [h1, hw]
  · have h1 : x ∉ w.filter (fun y => y != id) :=
      fun hc => hw (List.mem_filter.mp hc).1
    simp [h1, hw]

/-- Map update does not affect lookups of other ids. -/
theorem lookup_setLastAction (m : List (String × ℕ)) (id x : String) (v : ℕ)
    (h : x ≠ id) :
    lookupLastAction (setLastAction m id v) x = lookupLastAction m x := by
  unfold lookupLastAction setLastAction
  rw [List.find?_cons_of_neg]
  · congr 1
    induction m with
    | nil => rfl
    | cons q qs ih =>
        by_cases hq : q.1 = id
        · rw [List.filter_cons_of_neg (by simp [hq]),
            List.find?_cons_of_neg]
          · exact ih
          · simp only [beq_iff_eq]
            exact fun he => h (he ▸ hq)
        · rw [List.filter_cons_of_pos (by simp [hq])]
          by_cases hqx : q.1 = x
          · rw [List.find?_cons_of_pos, List.find?_cons_of_pos]
            · simp [hqx]
            · simp [hqx]
          · rw [List.find?_cons_of_neg, List.find?_cons_of_neg]
            · exact ih
            · simp [hqx]
            · simp [hqx]
  · simp only [beq_iff_eq]
    exact Ne.symm h

/-- One agent turn leaves the iteration counter and configuration
untouched and never changes the waiting flag or last-productive entry
of a different agent. -/
theorem processAgent_frame (s : AutonomousState) (b : TestUser)
    (o : TurnOracle) :
    (processAgent s b o).currentIteration = s.currentIteration ∧
    (processAgent s b o).simulationConfig = s.simulationConfig ∧
    (∀ x : String, x ≠ b.id →
      (processAgent s b o).waitingAgents.contains x =
        s.waitingAgents.contains x ∧
      lookupLastAction (processAgent s b o).lastActionByAgent x =
        lookupLastAction s.lastActionByAgent x) := by
  unfold processAgent
  dsimp only
  split
  · exact ⟨rfl, rfl, fun x hx => ⟨rfl, rfl⟩⟩
  split
  · exact ⟨rfl, rfl, fun x hx => ⟨contains_addWaiting _ _ _ hx, rfl⟩⟩
  split
  · exact ⟨rfl, rfl, fun x hx =>
      ⟨by rw [contains_addWaiting _ _ _ hx, contains_delWaiting _ _ _ hx], rfl⟩⟩
  split
  · split_ifs with hsucc
    · exact ⟨rfl, rfl, fun x hx =>
        ⟨contains_delWaiting _ _ _ hx, lookup_setLastAction _ _ _ _ hx⟩⟩
    · exact ⟨rfl, rfl, fun x hx => ⟨contains_delWaiting _ _ _ hx, rfl⟩⟩
  · exact ⟨rfl, rfl, fun x hx => ⟨contains_delWaiting _ _ _ hx, rfl⟩⟩

/-- A skipped agent is left exactly as it was: the turn is a no-op. -/
theorem processAgent_skip (s : AutonomousState) (a : TestUser)
    (o : TurnOracle) (h : skipCond s a) : processAgent s a o = s := by
  obtain ⟨h1, h2⟩ := h
  unfold processAgent
  dsimp only
  rw [if_pos (by
    simp only [Bool.and_eq_true, decide_eq_true_eq]
    exact ⟨h1, h2⟩)]

/-- The skip condition survives any other agent turn. -/
theorem skipCond_processAgent (s : AutonomousState) (a b : TestUser)
    (o : TurnOracle) (h : skipCond s a) : skipCond (processAgent s b o) a := by
  by_cases hid : b.id = a.id
  · have hb : skipCond s b := by
      unfold skipCond at h ⊢
      rw [hid]
      exact h
    rw [processAgent_skip s b o hb]
    exact h
  · obtain ⟨hf1, hf2, hf3⟩ := processAgent_frame s b o
    obtain ⟨hc, hl⟩ := hf3 a.id (fun he => hid he.symm)
    unfold skipCond at h ⊢
    rw [hc, hl, hf1, hf2]
    exact h

/-- The skip condition survives the iteration-counter increment. -/
theorem skipCond_succ (s : AutonomousState) (a : TestUser)
    (h : skipCond s a) :
    skipCond { s with currentIteration := s.currentIteration + 1 } a := by
  obtain ⟨h1, h2⟩ := h
  exact ⟨h1, by dsimp only; omega⟩

/-- The skip condition survives a whole pass over any agent order. -/
theorem skipCond_foldl (a : TestUser) :
    ∀ (ps : List (TestUser × TurnOracle)) (s : AutonomousState),
      skipCond s a →
      skipCond (ps.foldl (fun s p => processAgent s p.1 p.2) s) a := by
  intro ps
  induction ps with
  | nil => intro s h; exact h
  | cons p ps ih =>
      intro s h
      exact ih _ (skipCond_processAgent s a p.1 p.2 h)

/-- C3 amended: an actor flagged waiting whose stall duration exceeds
maxWaitCycles is skipped without being re-evaluated; and the skip is
permanent: the waiting flag and the last productive iteration of a
skipped actor can never change again (only its own evaluation could
change them), so after any further full iteration, over any agent order
with any oracle outcomes, it is still skipped, regardless of what
actions became available to it. -/
theorem C3_permanent_skip (s : AutonomousState) (agent : TestUser)
    (o : TurnOracle) (order : List TestUser) (oracles : List TurnOracle)
    (h : skipCond s agent) :
    processAgent s agent o = s ∧
    skipCond (autonomousLoopIter s order oracles) agent := by
  refine ⟨processAgent_skip s agent o h, ?_⟩
  unfold autonomousLoopIter
  dsimp only
  exact skipCond_foldl agent _ _ (skipCond_succ s agent h)

/-- A state in which the homeowner has been waiting since iteration 0
and the current iteration is 7, past the cap of 5. -/
def c3State : AutonomousState :=
  { toTestAgentState := { emptyState with testUsers := [hoUser, tpUser] }
    simulationConfig := c2Config
    currentIteration := 7
    waitingAgents := ["h1"]
    lastActionByAgent := [("h1", 0)] }

/-- A concrete turn oracle (its contents are never reached on the skip
path). -/
def c3Oracle : TurnOracle :=
  { llm := LLMOutcome.failure
    rand := 0
    tools := c8Tools }

/-- C3 counterexample: the homeowner has an available action
(create_job is always available to a homeowner), so by the claim it
should resume being evaluated every iteration; yet its turn is a
complete no-op (it is skipped, not re-evaluated) and it is still
skipped at the next iteration. -/
theorem C3_counterexample :
    getAvailableActions c3State.toTestAgentState hoUser ≠ [] ∧
    processAgent c3State hoUser c3Oracle = c3State ∧
    skipCond { c3State with currentIteration := c3State.currentIteration + 1 }
      hoUser := by
  refine ⟨by decide, by decide, by decide⟩

/-- C3 amended, witnessed at the concrete stalled state. -/
theorem C3_permanent_skip_witness :
    processAgent c3State hoUser c3Oracle = c3State ∧
    skipCond (autonomousLoopIter c3State [tpUser, hoUser] [c3Oracle, c3Oracle])
      hoUser :=
  C3_permanent_skip c3State hoUser c3Oracle [tpUser, hoUser]
    [c3Oracle, c3Oracle] (by decide)

/-! ## C6 -/

/-- The try-block of the tradesperson agent never touches the action
history or the error list on its success path. -/
theorem tradespersonRun_ok_frame (s : TestAgentState) (u : TestUser)
    (a : AnyAction) (p : ActionParams) (t : ToolOracle)
    (st : TestAgentState) (h : tradespersonRun s u a p t = Except.ok st) :
    st.actionHistory = s.actionHistory ∧ st.errors = s.errors := by
  cases a <;>
    (unfold tradespersonRun at h; dsimp only at h) <;>
    (repeat' split at h) <;>
    first
      | (injection h with h2; subst h2; exact ⟨rfl, rfl⟩)
      | (cases h)

/-- The try-block of the homeowner agent never touches the action
history or the error list on its success path. -/
theorem homeownerRun_ok_frame (s : TestAgentState) (u : TestUser)
    (a : AnyAction) (p : ActionParams) (t : ToolOracle)
    (st : TestAgentState) (h : homeownerRun s u a p t = Except.ok st) :
    st.actionHistory = s.actionHistory ∧ st.errors = s.errors := by
  cases a <;>
    (unfold homeownerRun at h; dsimp only at h) <;>
    (repeat' split at h) <;>
    first
      | (injection h with h2; subst h2; exact ⟨rfl, rfl⟩)
      | (cases h)

/-- The try-block of the business agent never touches the action
history or the error list on its success path. -/
theorem businessRun_ok_frame (s : TestAgentState) (u : TestUser)
    (a : AnyAction) (p : ActionParams) (t : ToolOracle)
    (st : TestAgentState) (h : businessRun s u a p t = Except.ok st) :
    st.actionHistory = s.actionHistory ∧ st.errors = s.errors := by
  cases a <;>
    (unfold businessRun at h; dsimp only at h) <;>
    (repeat' split at h) <;>
    first
      | (injection h with h2; subst h2; exact ⟨rfl, rfl⟩)
      | (cases h)

/-- The tradesperson agent wrapper: when a tradesperson user exists,
exactly one record is appended to the history on both paths, a success
leaves the error list alone, and a failure carries the error text into
the record, the error list and the message log. -/
theorem tradespersonAgent_spec (s : TestAgentState) (a : AnyAction)
    (p : ActionParams) (t : ToolOracle)
    (hfind : (s.testUsers.find?
      (fun u => u.role == UserRole.tradesperson)).isSome) :
    (tradespersonAgent s a p t).1.actionHistory =
      s.actionHistory ++ [(tradespersonAgent s a p t).2] ∧
    ((tradespersonAgent s a p t).2.success = true →
      (tradespersonAgent s a p t).1.errors = s.errors) ∧
    ((tradespersonAgent s a p t).2.success = false →
      ∃ e, (tradespersonAgent s a p t).2.error = some e ∧
        (tradespersonAgent s a p t).1.errors =
          s.errors ++ ["Tradesperson " ++ actionName a ++ " failed: " ++ e] ∧
        (tradespersonAgent s a p t).1.messages =
          s.messages ++
            ["Tradesperson action failed: " ++ actionName a ++ " - " ++ e]) := by
  obtain ⟨u, hu⟩ := Option.isSome_iff_exists.mp hfind
  unfold tradespersonAgent
  rw [hu]
  dsimp only
  rcases hr : tradespersonRun s u a p t with e | st
  · dsimp only
    refine ⟨rfl, ?_, ?_⟩
    · intro hc
      simp at hc
    · intro _
      exact ⟨e, rfl, rfl, rfl⟩
  · obtain ⟨hh, he⟩ := tradespersonRun_ok_frame s u a p t st hr
    dsimp only
    refine ⟨?_, ?_, ?_⟩
    · rw [hh]
    · intro _
      exact he
    · intro hc
      simp at hc

/-- The homeowner agent wrapper, same shape. -/
theorem homeownerAgent_spec (s : TestAgentState) (a : AnyAction)
    (p : ActionParams) (t : ToolOracle)
    (hfind : (s.testUsers.find?
      (fun u => u.role == UserRole.homeowner)).isSome) :
    (homeownerAgent s a p t).1.actionHistory =
      s.actionHistory ++ [(homeownerAgent s a p t).2] ∧
    ((homeownerAgent s a p t).2.success = true →
      (homeownerAgent s a p t).1.errors = s.errors) ∧
    ((homeownerAgent s a p t).2.success = false →
      ∃ e, (homeownerAgent s a p t).2.error = some e ∧
        (homeownerAgent s a p t).1.errors =
          s.errors ++ ["Homeowner " ++ actionName a ++ " failed: " ++ e] ∧
        (homeownerAgent s a p t).1.messages =
          s.messages ++
            ["Homeowner action failed: " ++ actionName a ++ " - " ++ e]) := by
  obtain ⟨u, hu⟩ := Option.isSome_iff_exists.mp hfind
  unfold homeownerAgent
  rw [hu]
  dsimp only
  rcases hr : homeownerRun s u a p t with e | st
  · dsimp only
    refine ⟨rfl, ?_, ?_⟩
    · intro hc
      simp at hc
    · intro _
      exact ⟨e, rfl, rfl, rfl⟩
  · obtain ⟨hh, he⟩ := homeownerRun_ok_frame s u a p t st hr
    dsimp only
    refine ⟨?_, ?_, ?_⟩
    · rw [hh]
    · intro _
      exact he
    · intro hc
      simp at hc

/-- The business agent wrapper, same shape. -/
theorem businessAgent_spec (s : TestAgentState) (a : AnyAction)
    (p : ActionParams) (t : ToolOracle)
    (hfind : (s.testUsers.find?
      (fun u => u.role == UserRole.business)).isSome) :
    (businessAgent s a p t).1.actionHistory =
      s.actionHistory ++ [(businessAgent s a p t).2] ∧
    ((businessAgent s a p t).2.success = true →
      (businessAgent s a p t).1.errors = s.errors) ∧
    ((businessAgent s a p t).2.success = false →
      ∃ e, (businessAgent s a p t).2.error = some e ∧
        (businessAgent s a p t).1.errors =
          s.errors ++ ["Business " ++ actionName a ++ " failed: " ++ e] ∧
        (businessAgent s a p t).1.messages =
          s.messages ++
            ["Business action failed: " ++ actionName a ++ " - " ++ e]) := by
  obtain ⟨u, hu⟩ := Option.isSome_iff_exists.mp hfind
  unfold businessAgent
  rw [hu]
  dsimp only
  rcases hr : businessRun s u a p t with e | st
  · dsimp only
    refine ⟨rfl, ?_, ?_⟩
    · intro hc
      simp at hc
    · intro _
      exact ⟨e, rfl, rfl, rfl⟩
  · obtain ⟨hh, he⟩ := businessRun_ok_frame s u a p t st hr
    dsimp only
    refine ⟨?_, ?_, ?_⟩
    · rw [hh]
    · intro _
      exact he
    · intro hc
      simp at hc

/-- Moving an element to the front is a permutation. -/
theorem moveToFront_perm (l : List TestUser) (idx : ℕ) :
    (moveToFront l idx).Perm l := by
  unfold moveToFront
  split
  · rename_i u hu
    rcases List.get?_eq_some.mp hu with ⟨hlt, hget⟩
    refine (List.perm_middle.symm).trans ?_
    rw [← hget, List.get_cons_drop, List.take_append_drop]
  · exact List.Perm.refl l

/-- The move-to-front step only permutes the user list; every other
field of the World State is untouched. -/
theorem moveUserFirst_facts (state : TestAgentState) (user : TestUser) :
    (moveUserFirst state user).actionHistory = state.actionHistory ∧
    (moveUserFirst state user).errors = state.errors ∧
    (moveUserFirst state user).messages = state.messages ∧
    (moveUserFirst state user).testUsers.Perm state.testUsers := by
  unfold moveUserFirst
  split
  · split_ifs
    · exact ⟨rfl, rfl, rfl, moveToFront_perm _ _⟩
    · exact ⟨rfl, rfl, rfl, List.Perm.refl _⟩
  · exact ⟨rfl, rfl, rfl, List.Perm.refl _⟩

/-- The role name as it appears in agent error messages. -/
def roleLabel : UserRole → String
  | .homeowner => "Homeowner"
  | .tradesperson => "Tradesperson"
  | .business => "Business"
  | _ => ""

/-- C6: for every attempted action execution by one of the three
autonomous roles, executeAction returns normally (tool errors never
propagate out) and exactly one ActionRecord is appended to the action
history, success or failure; a success leaves the error list alone,
and a failure is converted into an unsuccessful record whose error
text is also appended to the error list and the message log. -/
theorem C6_record_appended_once (state : TestAgentState) (user : TestUser)
    (d : AgentDecision) (tools : ToolOracle)
    (hmem : user ∈ state.testUsers)
    (hrole : user.role = UserRole.homeowner ∨
      user.role = UserRole.tradesperson ∨ user.role = UserRole.business) :
    ∃ st res, executeAction state user d tools = Except.ok (st, res) ∧
      st.actionHistory = state.actionHistory ++ [res] ∧
      (res.success = true → st.errors = state.errors) ∧
      (res.success = false → ∃ e, res.error = some e ∧
        st.errors = state.errors ++
          [roleLabel user.role ++ " " ++ actionName d.action ++
           " failed: " ++ e] ∧
        st.messages = state.messages ++
          [roleLabel user.role ++ " action failed: " ++
           actionName d.action ++ " - " ++ e]) := by
  obtain ⟨hh1, he1, hm1, hperm⟩ := moveUserFirst_facts state user
  have hmem1 : user ∈ (moveUserFirst state user).testUsers :=
    hperm.mem_iff.mpr hmem
  rcases hrole with h | h | h
  · have hfind : ((moveUserFirst state user).testUsers.find?
        (fun u => u.role == UserRole.homeowner)).isSome := by
      rw [List.find?_isSome]
      exact ⟨user, hmem1, by simp [h]⟩
    obtain ⟨ha, hb, hc⟩ :=
      homeownerAgent_spec (moveUserFirst state user) d.action d.params tools
        hfind
    refine ⟨{ (homeownerAgent (moveUserFirst state user) d.action d.params
            tools).1 with testUsers := state.testUsers },
      (homeownerAgent (moveUserFirst state user) d.action d.params tools).2,
      ?_, ?_, ?_, ?_⟩
    · unfold executeAction
      rw [h]
    · dsimp only
      rw [ha, hh1]
    · intro hs
      dsimp only
      rw [hb hs, he1]
    · intro hs
      obtain ⟨e, he, herr, hmsg⟩ := hc hs
      rw [h]
      exact ⟨e, he, by dsimp only; rw [herr, he1]; rfl,
        by dsimp only; rw [hmsg, hm1]; rfl⟩
  · have hfind : ((moveUserFirst state user).testUsers.find?
        (fun u => u.role == UserRole.tradesperson)).isSome := by
      rw [List.find?_isSome]
      exact ⟨user, hmem1, by simp [h]⟩
    obtain ⟨ha, hb, hc⟩ :=
      tradespersonAgent_spec (moveUserFirst state user) d.action d.params tools
        hfind
    refine ⟨{ (tradespersonAgent (moveUserFirst state user) d.action d.params
            tools).1 with testUsers := state.testUsers },
      (tradespersonAgent (moveUserFirst state user) d.action d.params tools).2,
      ?_, ?_, ?_, ?_⟩
    · unfold executeAction
      rw [h]
    · dsimp only
      rw [ha, hh1]
    · intro hs
      dsimp only
      rw [hb hs, he1]
    · intro hs
      obtain ⟨e, he, herr, hmsg⟩ := hc hs
      rw [h]
      exact ⟨e, he, by dsimp only; rw [herr, he1]; rfl,
        by dsimp only; rw [hmsg, hm1]; rfl⟩
  · have hfind : ((moveUserFirst state user).testUsers.find?
        (fun u => u.role == UserRole.business)).isSome := by
      rw [List.find?_isSome]
      exact ⟨user, hmem1, by simp [h]⟩
    obtain ⟨ha, hb, hc⟩ :=
      businessAgent_spec (moveUserFirst state user) d.action d.params tools
        hfind
    refine ⟨{ (businessAgent (moveUserFirst state user) d.action d.params
            tools).1 with testUsers := state.testUsers },
      (businessAgent (moveUserFirst state user) d.action d.params tools).2,
      ?_, ?_, ?_, ?_⟩
    · unfold executeAction
      rw [h]
    · dsimp only
      rw [ha, hh1]
    · intro hs
      dsimp only
      rw [hb hs, he1]
    · intro hs
      obtain ⟨e, he, herr, hmsg⟩ := hc hs
      rw [h]
      exact ⟨e, he, by dsimp only; rw [herr, he1]; rfl,
        by dsimp only; rw [hmsg, hm1]; rfl⟩

/-- A concrete decision for the C6 witness. -/
def c6Decision : AgentDecision :=
  { action := AnyAction.create_job
    reasoning := "fixture"
    params := ActionParams.empty }

/-- C6 witnessed at a concrete input: a homeowner executing create_job
with a failing tool oracle still yields exactly one appended record. -/
theorem C6_record_appended_once_witness :
    ∃ st res, executeAction c7State hoUser c6Decision c8Tools =
        Except.ok (st, res) ∧
      st.actionHistory = c7State.actionHistory ++ [res] ∧
      (res.success = true → st.errors = c7State.errors) ∧
      (res.success = false → ∃ e, res.error = some e ∧
        st.errors = c7State.errors ++
          [roleLabel hoUser.role ++ " " ++ actionName c6Decision.action ++
           " failed: " ++ e] ∧
        st.messages = c7State.messages ++
          [roleLabel hoUser.role ++ " action failed: " ++
           actionName c6Decision.action ++ " - " ++ e]) :=
  C6_record_appended_once c7State hoUser c6Decision c8Tools (by decide)
    (Or.inl rfl)

end TestingAgent
